import Mathlib

/-!
# LinkiSend service worker — verification of the cache-strategy handlers

Shallow embedding of `src/backend/public/service-worker.js`.  The file holds
three revisions of the service worker, separated by document markers:

* revision F ("version finale", file lines 1-24): install only calls
  `skipWaiting`; activate deletes every cache; a message handler recognises
  `{ type: "SKIP_WAITING" }`; there is no fetch handler.
* revision v3 (`CACHE_NAME = "linkisend-v3"`, file lines 25-98): install
  precaches `ASSETS`; activate deletes every cache except `CACHE_NAME`;
  the fetch handler has four branches (excluded, navigation, precached
  asset, default).
* revision v1 (`CACHE_NAME = "linkisend-v1"`, file lines 99-145): like v3
  but with a smaller `ASSETS`, only the `/create-link` exclusion, no
  navigation branch, and no cache write in the precached-asset branch.

Modelling decisions:
* A response is its status and body; a request is the two fields the
  handlers read, `url.pathname` and `request.mode`.
* A cache store is an association list from URL path to response
  (`Cache.put` overwrites the entry for the same path); the host's cache
  registry (`CacheStorage`) is an association list from store name to store.
* The network is a function from path to `Option Response`; `none` models a
  rejected `fetch` (offline).
* `cache.addAll` fetches every listed path and stores the responses; it is
  atomic, so a failed install commits nothing to the registry.
* Promise chains are linearised in program order; the unawaited
  `cache.put` in the v3 asset branch is modelled as completing before the
  next event is handled.
-/

/-- A network response: the fields the claims talk about. -/
structure Response where
  status : Nat
  body : String
deriving DecidableEq

/-- The two fields of `event.request` that the fetch handlers read:
`new URL(event.request.url).pathname` and `event.request.mode`. -/
structure Request where
  pathname : String
  mode : String
deriving DecidableEq

/-- A cache store: URL path ↦ stored response (first entry wins on lookup). -/
abbrev Cache := List (String × Response)

/-- The host's cache registry (`CacheStorage`): store name ↦ store. -/
abbrev Registry := List (String × Cache)

/-- The network: `none` models a rejected fetch (offline / network error). -/
abbrev Net := String → Option Response

/-- First value bound to key `k`, as in assoc-list lookup. -/
def lookupKey {α : Type} : List (String × α) → String → Option α
  | [], _ => none
  | e :: rest, k => if e.1 = k then some e.2 else lookupKey rest k

/-- Remove every entry bound to key `k`. -/
def removeKey {α : Type} : List (String × α) → String → List (String × α)
  | [], _ => []
  | e :: rest, k => if e.1 = k then removeKey rest k else e :: removeKey rest k

/-- Does `s` start with the pattern `pat`? (JS `String.prototype.startsWith`,
on the underlying character lists.) -/
def listStarts : List Char → List Char → Bool
  | [], _ => true
  | _ :: _, [] => false
  | a :: pr, b :: sr => if a = b then listStarts pr sr else false

/-- JS `url.pathname.startsWith(pat)`. -/
def strStarts (s pat : String) : Bool := listStarts pat.data s.data

/-- JS `url.pathname.endsWith(pat)`. -/
def strEnds (s pat : String) : Bool := listStarts pat.data.reverse s.data.reverse

/-- Host `cache.match(request)` inside one store: first entry for the path. -/
def cacheMatch (c : Cache) (p : String) : Option Response := lookupKey c p

/-- The set of keys (request paths) of a cache store. -/
def cacheKeys (c : Cache) : List String := c.map (fun e => e.1)

/-- Host `cache.put(request, response)`: overwrite the entry for the path. -/
def cachePut (c : Cache) (p : String) (r : Response) : Cache :=
  (p, r) :: removeKey c p

/-- Host `caches.open(name)`: the named store, or a fresh empty one. -/
def cachesOpen (reg : Registry) (name : String) : Cache :=
  (lookupKey reg name).getD []

/-- Host `caches.delete(name)`: drop the named store from the registry. -/
def cachesDelete (reg : Registry) (name : String) : Registry :=
  removeKey reg name

/-- Host `caches.keys()`: the names of all stores in the registry. -/
def cachesKeys (reg : Registry) : List String := reg.map (fun e => e.1)

/-- Host `caches.match(request)` on the whole registry: first store that has an
entry for the path wins. -/
def cachesMatchAll : Registry → String → Option Response
  | [], _ => none
  | e :: rest, p =>
    match cacheMatch e.2 p with
    | some r => some r
    | none => cachesMatchAll rest p

/-- Write back the (possibly fresh) named store into the registry. -/
def registrySet (reg : Registry) (name : String) (c : Cache) : Registry :=
  (name, c) :: removeKey reg name

/-- Source `caches.open(name).then((c) => c.put(p, r))`. -/
def registryPut (reg : Registry) (name : String) (p : String) (r : Response) : Registry :=
  registrySet reg name (cachePut (cachesOpen reg name) p r)

/-- Constant `ASSETS` of the v3 revision (file lines 27-40). -/
def ASSETS_v3 : List String :=
  ["/", "/index.html", "/claim.html", "/confirmation.html", "/history.html",
   "/send.html", "/countries.js", "/config.js",
   "/assets/branding/logo-word.svg", "/assets/branding/logo-arrow.svg",
   "/assets/icons/icon-192.png", "/assets/icons/icon-512.png"]

/-- Constant `CACHE_NAME` of the v3 revision (file line 26). -/
def CACHE_NAME_v3 : String := "linkisend-v3"

/-- Constant `ASSETS` of the v1 revision (file lines 101-108). -/
def ASSETS_v1 : List String :=
  ["/", "/index.html", "/countries.js", "/config.js",
   "/assets/branding/logo-word.svg", "/assets/branding/logo-arrow.svg"]

/-- Constant `CACHE_NAME` of the v1 revision (file line 100). -/
def CACHE_NAME_v1 : String := "linkisend-v1"

/-- Host `cache.addAll(assets)`: fetch every path, store every response; reject if
any fetch rejects (and then, being atomic, commit nothing). -/
def addAll (net : Net) : List String → Cache → Option Cache
  | [], c => some c
  | p :: rest, c =>
    match net p with
    | none => none
    | some r => addAll net rest (cachePut c p r)

/-- The shared shape of the v3 and v1 install handlers:
`caches.open(CACHE_NAME).then((cache) => cache.addAll(ASSETS))`, with the
updated registry on success and `none` when `addAll` rejects. -/
def installInto (name : String) (assets : List String) (net : Net) (reg : Registry) :
    Option Registry :=
  match addAll net assets (cachesOpen reg name) with
  | none => none
  | some c => some (registrySet reg name c)

/-- The v3 install handler (file lines 43-49). -/
def installEvent_v3 (net : Net) (reg : Registry) : Option Registry :=
  installInto CACHE_NAME_v3 ASSETS_v3 net reg

/-- The v1 install handler (file lines 111-115). -/
def installEvent_v1 (net : Net) (reg : Registry) : Option Registry :=
  installInto CACHE_NAME_v1 ASSETS_v1 net reg

/-- Whether the v3 install handler reaches `.then(() => self.skipWaiting())`:
only when the `addAll` promise resolved. -/
def installSkipWaiting_v3 (net : Net) (reg : Registry) : Bool :=
  (installEvent_v3 net reg).isSome

/-- One pass of `Promise.all(keys.map((k) => (k === current ? null :
caches.delete(k))))`, linearised over the key list. -/
def purgeList (current : String) : List String → Registry → Registry
  | [], reg => reg
  | k :: rest, reg =>
    purgeList current rest (if k = current then reg else cachesDelete reg k)

/-- One pass of `Promise.all(keys.map(k => caches.delete(k)))` of the final
revision: delete every listed store. -/
def purgeAll : List String → Registry → Registry
  | [], reg => reg
  | k :: rest, reg => purgeAll rest (cachesDelete reg k)

/-- The v3 activate handler (file lines 52-58): delete every store whose name
is not `CACHE_NAME_v3`. -/
def activateEvent_v3 (reg : Registry) : Registry :=
  purgeList CACHE_NAME_v3 (cachesKeys reg) reg

/-- The v1 activate handler (file lines 118-124). -/
def activateEvent_v1 (reg : Registry) : Registry :=
  purgeList CACHE_NAME_v1 (cachesKeys reg) reg

/-- The activate handler of the final revision (file lines 9-15): delete every
store in the registry. -/
def activateEvent_final (reg : Registry) : Registry :=
  purgeAll (cachesKeys reg) reg

/-- Payload `event.data` of a message event: `none` models `null` / `undefined` /
another falsy value; `type := none` models an object without a `type` field. -/
structure MessageData where
  type : Option String
deriving DecidableEq

/-- The message handler of the final revision (file lines 18-22); the result
tells whether `self.skipWaiting()` was called, which is its only effect. -/
def messageSkipWaiting : Option MessageData → Bool
  | none => false
  | some d => if d.type = some "SKIP_WAITING" then true else false

/-- Everything one call of a fetch handler does: whether `respondWith` was
called, the response it resolves to (`none`: the request fails), the registry
afterwards, and how many network fetches and cache writes happened. -/
structure FetchOutcome where
  intercepted : Bool
  response : Option Response
  reg : Registry
  netFetches : Nat
  cacheWrites : Nat
deriving DecidableEq

/-- The v3 fetch handler (file lines 64-98). Branches in source order:
1. excluded (`/manifest.json` suffix, `/create-link` prefix): return without
   `respondWith`;
2. `mode === "navigate"`: `fetch(request).catch(() => caches.match("/index.html"))`;
3. `ASSETS.includes(pathname)`: serve cached, else fetch, put a copy, serve;
   a rejected fetch rejects the respondWith promise (no response);
4. default: `fetch(request).catch(() => caches.match(request))`. -/
def handleFetch_v3 (net : Net) (reg : Registry) (req : Request) : FetchOutcome :=
  if strEnds req.pathname "/manifest.json" then
    { intercepted := false, response := none, reg := reg, netFetches := 0, cacheWrites := 0 }
  else if strStarts req.pathname "/create-link" then
    { intercepted := false, response := none, reg := reg, netFetches := 0, cacheWrites := 0 }
  else if req.mode = "navigate" then
    match net req.pathname with
    | some resp =>
      { intercepted := true, response := some resp, reg := reg, netFetches := 1, cacheWrites := 0 }
    | none =>
      { intercepted := true, response := cachesMatchAll reg "/index.html", reg := reg,
        netFetches := 1, cacheWrites := 0 }
  else if req.pathname ∈ ASSETS_v3 then
    match cachesMatchAll reg req.pathname with
    | some cached =>
      { intercepted := true, response := some cached, reg := reg, netFetches := 0, cacheWrites := 0 }
    | none =>
      match net req.pathname with
      | some resp =>
        { intercepted := true, response := some resp,
          reg := registryPut reg CACHE_NAME_v3 req.pathname resp,
          netFetches := 1, cacheWrites := 1 }
      | none =>
        { intercepted := true, response := none, reg := reg, netFetches := 1, cacheWrites := 0 }
  else
    match net req.pathname with
    | some resp =>
      { intercepted := true, response := some resp, reg := reg, netFetches := 1, cacheWrites := 0 }
    | none =>
      { intercepted := true, response := cachesMatchAll reg req.pathname, reg := reg,
        netFetches := 1, cacheWrites := 0 }

/-- The v1 fetch handler (file lines 127-145). Branches in source order:
1. excluded (`/create-link` prefix): return without `respondWith`;
2. `ASSETS.includes(pathname)`: `caches.match(request).then((res) => res || fetch(request))`
   — cache first, no write back;
3. default: `fetch(request).catch(() => caches.match(request))`. -/
def handleFetch_v1 (net : Net) (reg : Registry) (req : Request) : FetchOutcome :=
  if strStarts req.pathname "/create-link" then
    { intercepted := false, response := none, reg := reg, netFetches := 0, cacheWrites := 0 }
  else if req.pathname ∈ ASSETS_v1 then
    match cachesMatchAll reg req.pathname with
    | some res =>
      { intercepted := true, response := some res, reg := reg, netFetches := 0, cacheWrites := 0 }
    | none =>
      match net req.pathname with
      | some resp =>
        { intercepted := true, response := some resp, reg := reg, netFetches := 1, cacheWrites := 0 }
      | none =>
        { intercepted := true, response := none, reg := reg, netFetches := 1, cacheWrites := 0 }
  else
    match net req.pathname with
    | some resp =>
      { intercepted := true, response := some resp, reg := reg, netFetches := 1, cacheWrites := 0 }
    | none =>
      { intercepted := true, response := cachesMatchAll reg req.pathname, reg := reg,
        netFetches := 1, cacheWrites := 0 }

/-- One event delivered to a service-worker revision by the host runtime. -/
inductive SWEvent where
  | install (net : Net)
  | activate
  | fetchReq (net : Net) (req : Request)

/-- Effect of one event on the registry under the v3 revision (a failed
install commits nothing, `addAll` being atomic). -/
def step_v3 (reg : Registry) : SWEvent → Registry
  | SWEvent.install net => (installEvent_v3 net reg).getD reg
  | SWEvent.activate => activateEvent_v3 reg
  | SWEvent.fetchReq net req => (handleFetch_v3 net reg req).reg

/-- Registry after a sequence of events under the v3 revision. -/
def run_v3 (reg : Registry) : List SWEvent → Registry
  | [] => reg
  | ev :: rest => run_v3 (step_v3 reg ev) rest

/-- Effect of one event on the registry under the v1 revision. -/
def step_v1 (reg : Registry) : SWEvent → Registry
  | SWEvent.install net => (installEvent_v1 net reg).getD reg
  | SWEvent.activate => activateEvent_v1 reg
  | SWEvent.fetchReq net req => (handleFetch_v1 net reg req).reg

/-- Registry after a sequence of events under the v1 revision. -/
def run_v1 (reg : Registry) : List SWEvent → Registry
  | [] => reg
  | ev :: rest => run_v1 (step_v1 reg ev) rest

/-- Some store of the registry has an entry keyed by path `p`. -/
def regHasKey (reg : Registry) (p : String) : Prop :=
  ∃ nc ∈ reg, ∃ e ∈ nc.2, e.1 = p

instance (reg : Registry) (p : String) : Decidable (regHasKey reg p) := by
  unfold regHasKey
  infer_instance

/-- Every key of every store of the registry belongs to the path list `A`. -/
def regKeysIn (A : List String) (reg : Registry) : Prop :=
  ∀ nc ∈ reg, ∀ e ∈ nc.2, e.1 ∈ A

theorem lookupKey_removeKey_self {α : Type} (l : List (String × α)) (k : String) :
    lookupKey (removeKey l k) k = none := by
  induction l with
  | nil => rfl
  | cons e rest ih => by_cases h : e.1 = k <;> simp [removeKey, lookupKey, h, ih]

theorem lookupKey_removeKey_ne {α : Type} (l : List (String × α)) (k k' : String)
    (hk : ¬ k' = k) : lookupKey (removeKey l k) k' = lookupKey l k' := by
  induction l with
  | nil => rfl
  | cons e rest ih =>
    by_cases h : e.1 = k
    · have hne : ¬ e.1 = k' := fun hh => hk (hh.symm.trans h)
      have hkk : ¬ k = k' := fun hh => hk hh.symm
      simp [removeKey, lookupKey, h, hne, hkk, ih]
    · by_cases h2 : e.1 = k' <;> simp [removeKey, lookupKey, h, h2, hk, ih]

theorem mem_removeKey {α : Type} {l : List (String × α)} {k : String} {e : String × α}
    (he : e ∈ removeKey l k) : e ∈ l ∧ ¬ e.1 = k := by
  induction l with
  | nil => simp [removeKey] at he
  | cons a rest ih =>
    by_cases h : a.1 = k
    · rw [removeKey, if_pos h] at he
      rcases ih he with ⟨h1, h2⟩
      exact ⟨List.mem_cons_of_mem _ h1, h2⟩
    · rw [removeKey, if_neg h] at he
      rcases List.mem_cons.1 he with rfl | he'
      · exact ⟨List.mem_cons_self _ _, h⟩
      · rcases ih he' with ⟨h1, h2⟩
        exact ⟨List.mem_cons_of_mem _ h1, h2⟩

theorem lookupKey_mem {α : Type} {l : List (String × α)} {k : String} {v : α}
    (h : lookupKey l k = some v) : (k, v) ∈ l := by
  induction l with
  | nil => simp [lookupKey] at h
  | cons e rest ih =>
    by_cases he : e.1 = k
    · rw [lookupKey, if_pos he] at h
      have : e = (k, v) := by
        cases e
        simp_all
      exact this ▸ List.mem_cons_self _ _
    · rw [lookupKey, if_neg he] at h
      exact List.mem_cons_of_mem _ (ih h)

theorem cacheMatch_cachePut_self (c : Cache) (p : String) (r : Response) :
    cacheMatch (cachePut c p r) p = some r := by
  simp [cacheMatch, cachePut, lookupKey]

theorem cacheMatch_cachePut_ne (c : Cache) (p q : String) (r : Response) (h : ¬ q = p) :
    cacheMatch (cachePut c p r) q = cacheMatch c q := by
  have hne : ¬ p = q := fun hh => h hh.symm
  simp only [cacheMatch, cachePut, lookupKey, if_neg hne]
  exact lookupKey_removeKey_ne c p q h

theorem mem_cachePut {c : Cache} {p : String} {r : Response} {e : String × Response}
    (he : e ∈ cachePut c p r) : e = (p, r) ∨ e ∈ c := by
  rcases List.mem_cons.1 he with h | h
  · exact Or.inl h
  · exact Or.inr (mem_removeKey h).1

theorem addAll_isSome (net : Net) :
    ∀ (assets : List String) (c c' : Cache), addAll net assets c = some c' →
      ∀ p : String, (p ∈ assets ∨ (cacheMatch c p).isSome) → (cacheMatch c' p).isSome := by
  intro assets
  induction assets with
  | nil =>
    intro c c' h p hp
    rcases hp with hp | hp
    · exact absurd hp (List.not_mem_nil p)
    · cases h
      exact hp
  | cons a rest ih =>
    intro c c' h p hp
    rw [addAll] at h
    cases hna : net a with
    | none => rw [hna] at h; exact absurd h (by simp)
    | some r =>
      rw [hna] at h
      refine ih (cachePut c a r) c' h p ?_
      by_cases hpa : p = a
      · subst hpa
        exact Or.inr (by rw [cacheMatch_cachePut_self]; rfl)
      · rcases hp with hp | hp
        · rcases List.mem_cons.1 hp with h' | h'
          · exact absurd h' hpa
          · exact Or.inl h'
        · exact Or.inr (by rw [cacheMatch_cachePut_ne c a p r hpa]; exact hp)

theorem addAll_lookup_not_mem (net : Net) :
    ∀ (assets : List String) (c c' : Cache), addAll net assets c = some c' →
      ∀ p : String, ¬ p ∈ assets → cacheMatch c' p = cacheMatch c p := by
  intro assets
  induction assets with
  | nil =>
    intro c c' h p _
    cases h
    rfl
  | cons a rest ih =>
    intro c c' h p hp
    rw [addAll] at h
    cases hna : net a with
    | none => rw [hna] at h; exact absurd h (by simp)
    | some r =>
      rw [hna] at h
      have hpa : ¬ p = a := fun hh => hp (hh ▸ List.mem_cons_self a rest)
      have hpr : ¬ p ∈ rest := fun hh => hp (List.mem_cons_of_mem a hh)
      rw [ih (cachePut c a r) c' h p hpr]
      exact cacheMatch_cachePut_ne c a p r hpa

theorem addAll_lookup_of_mem (net : Net) :
    ∀ (assets : List String) (c c' : Cache), assets.Nodup → addAll net assets c = some c' →
      ∀ p : String, p ∈ assets → cacheMatch c' p = net p := by
  intro assets
  induction assets with
  | nil =>
    intro c c' _ _ p hp
    exact absurd hp (List.not_mem_nil p)
  | cons a rest ih =>
    intro c c' hnd h p hp
    rw [addAll] at h
    cases hna : net a with
    | none => rw [hna] at h; exact absurd h (by simp)
    | some r =>
      rw [hna] at h
      rcases List.mem_cons.1 hp with rfl | hpr
      · have hnr : ¬ p ∈ rest := (List.nodup_cons.1 hnd).1
        rw [addAll_lookup_not_mem net rest _ c' h p hnr, cacheMatch_cachePut_self, hna]
      · exact ih (cachePut c a r) c' (List.nodup_cons.1 hnd).2 h p hpr

theorem addAll_none_of_mem (net : Net) :
    ∀ (assets : List String) (c : Cache) (p : String), p ∈ assets → net p = none →
      addAll net assets c = none := by
  intro assets
  induction assets with
  | nil =>
    intro c p hp _
    exact absurd hp (List.not_mem_nil p)
  | cons a rest ih =>
    intro c p hp hnet
    rw [addAll]
    cases hna : net a with
    | none => rfl
    | some r =>
      rcases List.mem_cons.1 hp with rfl | hpr
      · rw [hnet] at hna
        exact absurd hna (by simp)
      · exact ih (cachePut c a r) p hpr hnet

theorem addAll_keysIn {A : List String} (net : Net) :
    ∀ (assets : List String) (c c' : Cache), (∀ q ∈ assets, q ∈ A) → (∀ e ∈ c, e.1 ∈ A) →
      addAll net assets c = some c' → ∀ e ∈ c', e.1 ∈ A := by
  intro assets
  induction assets with
  | nil =>
    intro c c' _ hc h
    cases h
    exact hc
  | cons a rest ih =>
    intro c c' hsub hc h
    rw [addAll] at h
    cases hna : net a with
    | none => rw [hna] at h; exact absurd h (by simp)
    | some r =>
      rw [hna] at h
      refine ih (cachePut c a r) c' (fun q hq => hsub q (List.mem_cons_of_mem a hq)) ?_ h
      intro e he
      rcases mem_cachePut he with rfl | he'
      · exact hsub a (List.mem_cons_self a rest)
      · exact hc e he'


theorem mem_purgeList (cur : String) :
    ∀ (ks : List String) (reg : Registry) (e : String × Cache),
      e ∈ purgeList cur ks reg → e ∈ reg := by
  intro ks
  induction ks with
  | nil => intro reg e h; exact h
  | cons k rest ih =>
    intro reg e h
    rw [purgeList] at h
    by_cases hk : k = cur
    · rw [if_pos hk] at h
      exact ih reg e h
    · rw [if_neg hk] at h
      exact (mem_removeKey (ih _ e h)).1

theorem purgeList_not_mem (cur : String) :
    ∀ (ks : List String) (reg : Registry) (name : String) (e : String × Cache),
      name ∈ ks → ¬ name = cur → e ∈ purgeList cur ks reg → ¬ e.1 = name := by
  intro ks
  induction ks with
  | nil => intro reg name e h; exact absurd h (List.not_mem_nil name)
  | cons k rest ih =>
    intro reg name e hmem hcur h
    rcases List.mem_cons.1 hmem with rfl | hrest
    · rw [purgeList, if_neg hcur] at h
      exact (mem_removeKey (mem_purgeList cur rest _ e h)).2
    · exact ih _ name e hrest hcur h

theorem lookupKey_purgeList (cur : String) :
    ∀ (ks : List String) (reg : Registry),
      lookupKey (purgeList cur ks reg) cur = lookupKey reg cur := by
  intro ks
  induction ks with
  | nil => intro reg; rfl
  | cons k rest ih =>
    intro reg
    rw [purgeList]
    by_cases hk : k = cur
    · rw [if_pos hk, ih]
    · rw [if_neg hk, ih]
      exact lookupKey_removeKey_ne reg k cur (fun hh => hk hh.symm)

theorem mem_purgeAll :
    ∀ (ks : List String) (reg : Registry) (e : String × Cache),
      e ∈ purgeAll ks reg → e ∈ reg ∧ ¬ e.1 ∈ ks := by
  intro ks
  induction ks with
  | nil => intro reg e h; exact ⟨h, List.not_mem_nil e.1⟩
  | cons k rest ih =>
    intro reg e h
    rw [purgeAll] at h
    rcases ih _ e h with ⟨h1, h2⟩
    rcases mem_removeKey h1 with ⟨h3, h4⟩
    refine ⟨h3, fun hmem => ?_⟩
    rcases List.mem_cons.1 hmem with hk | hk
    · exact h4 hk
    · exact h2 hk

theorem purgeAll_keys_nil (reg : Registry) : purgeAll (cachesKeys reg) reg = [] := by
  rw [List.eq_nil_iff_forall_not_mem]
  intro e he
  rcases mem_purgeAll (cachesKeys reg) reg e he with ⟨h1, h2⟩
  exact h2 (List.mem_map_of_mem (fun x => x.1) h1)

theorem cachesOpen_registrySet_self (reg : Registry) (name : String) (c : Cache) :
    cachesOpen (registrySet reg name c) name = c := by
  simp [cachesOpen, registrySet, lookupKey]

theorem cachesMatchAll_pair (name : String) (c : Cache) (p : String) :
    cachesMatchAll [(name, c)] p = cacheMatch c p := by
  cases h : cacheMatch c p <;> simp [cachesMatchAll, h]

theorem regKeysIn_nil (A : List String) : regKeysIn A [] := by
  intro nc hnc
  exact absurd hnc (List.not_mem_nil nc)

theorem regKeysIn_registrySet {A : List String} {reg : Registry} {c : Cache} (name : String)
    (hreg : regKeysIn A reg) (hc : ∀ e ∈ c, e.1 ∈ A) :
    regKeysIn A (registrySet reg name c) := by
  intro nc hnc e he
  rcases List.mem_cons.1 hnc with rfl | h
  · exact hc e he
  · exact hreg nc (mem_removeKey h).1 e he

theorem regKeysIn_cachesOpen {A : List String} {reg : Registry} (h : regKeysIn A reg)
    (name : String) : ∀ e ∈ cachesOpen reg name, e.1 ∈ A := by
  intro e he
  unfold cachesOpen at he
  cases hl : lookupKey reg name with
  | none => rw [hl] at he; exact absurd he (List.not_mem_nil e)
  | some c =>
    rw [hl] at he
    exact h (name, c) (lookupKey_mem hl) e he

theorem regKeysIn_installInto {A assets : List String} {name : String} {net : Net}
    {reg reg' : Registry} (hsub : ∀ q ∈ assets, q ∈ A) (h : regKeysIn A reg)
    (hi : installInto name assets net reg = some reg') : regKeysIn A reg' := by
  unfold installInto at hi
  cases ha : addAll net assets (cachesOpen reg name) with
  | none => rw [ha] at hi; exact absurd hi (by simp)
  | some c =>
    rw [ha] at hi
    cases hi
    exact regKeysIn_registrySet name h
      (addAll_keysIn net assets _ c hsub (regKeysIn_cachesOpen h name) ha)

theorem regKeysIn_purgeList {A : List String} (cur : String) (ks : List String)
    {reg : Registry} (h : regKeysIn A reg) : regKeysIn A (purgeList cur ks reg) := by
  intro nc hnc
  exact h nc (mem_purgeList cur ks reg nc hnc)

theorem regKeysIn_purgeAll {A : List String} (ks : List String) {reg : Registry}
    (h : regKeysIn A reg) : regKeysIn A (purgeAll ks reg) := by
  intro nc hnc
  exact h nc (mem_purgeAll ks reg nc hnc).1

theorem handleFetch_v3_reg_cases (net : Net) (reg : Registry) (req : Request) :
    (handleFetch_v3 net reg req).reg = reg ∨
      (req.pathname ∈ ASSETS_v3 ∧
        ∃ r : Response, (handleFetch_v3 net reg req).reg =
          registryPut reg CACHE_NAME_v3 req.pathname r) := by
  by_cases h1 : strEnds req.pathname "/manifest.json" = true
  · left; simp [handleFetch_v3, h1]
  · by_cases h2 : strStarts req.pathname "/create-link" = true
    · left; simp [handleFetch_v3, h1, h2]
    · by_cases h3 : req.mode = "navigate"
      · left; cases hn : net req.pathname <;> simp [handleFetch_v3, h1, h2, h3, hn]
      · by_cases h4 : req.pathname ∈ ASSETS_v3
        · cases hcm : cachesMatchAll reg req.pathname with
          | some cached => left; simp [handleFetch_v3, h1, h2, h3, h4, hcm]
          | none =>
            cases hn : net req.pathname with
            | some resp =>
              right
              exact ⟨h4, resp, by simp [handleFetch_v3, h1, h2, h3, h4, hcm, hn]⟩
            | none => left; simp [handleFetch_v3, h1, h2, h3, h4, hcm, hn]
        · left; cases hn : net req.pathname <;> simp [handleFetch_v3, h1, h2, h3, h4, hn]

theorem handleFetch_v1_reg (net : Net) (reg : Registry) (req : Request) :
    (handleFetch_v1 net reg req).reg = reg := by
  by_cases h2 : strStarts req.pathname "/create-link" = true
  · simp [handleFetch_v1, h2]
  · by_cases h4 : req.pathname ∈ ASSETS_v1
    · cases hcm : cachesMatchAll reg req.pathname with
      | some cached => simp [handleFetch_v1, h2, h4, hcm]
      | none => cases hn : net req.pathname <;> simp [handleFetch_v1, h2, h4, hcm, hn]
    · cases hn : net req.pathname <;> simp [handleFetch_v1, h2, h4, hn]

theorem handleFetch_v3_intercepted_iff (net : Net) (reg : Registry) (req : Request) :
    (handleFetch_v3 net reg req).intercepted = false ↔
      (strEnds req.pathname "/manifest.json" = true ∨
        strStarts req.pathname "/create-link" = true) := by
  by_cases h1 : strEnds req.pathname "/manifest.json" = true
  · simp [handleFetch_v3, h1]
  · by_cases h2 : strStarts req.pathname "/create-link" = true
    · simp [handleFetch_v3, h1, h2]
    · by_cases h3 : req.mode = "navigate"
      · cases hn : net req.pathname <;> simp [handleFetch_v3, h1, h2, h3, hn]
      · by_cases h4 : req.pathname ∈ ASSETS_v3
        · cases hcm : cachesMatchAll reg req.pathname with
          | some cached => simp [handleFetch_v3, h1, h2, h3, h4, hcm]
          | none => cases hn : net req.pathname <;> simp [handleFetch_v3, h1, h2, h3, h4, hcm, hn]
        · cases hn : net req.pathname <;> simp [handleFetch_v3, h1, h2, h3, h4, hn]

theorem handleFetch_v1_intercepted_iff (net : Net) (reg : Registry) (req : Request) :
    (handleFetch_v1 net reg req).intercepted = false ↔
      strStarts req.pathname "/create-link" = true := by
  by_cases h2 : strStarts req.pathname "/create-link" = true
  · simp [handleFetch_v1, h2]
  · by_cases h4 : req.pathname ∈ ASSETS_v1
    · cases hcm : cachesMatchAll reg req.pathname with
      | some cached => simp [handleFetch_v1, h2, h4, hcm]
      | none => cases hn : net req.pathname <;> simp [handleFetch_v1, h2, h4, hcm, hn]
    · cases hn : net req.pathname <;> simp [handleFetch_v1, h2, h4, hn]

theorem regKeysIn_handleFetch_v3 {net : Net} {reg : Registry} {req : Request}
    (h : regKeysIn ASSETS_v3 reg) : regKeysIn ASSETS_v3 (handleFetch_v3 net reg req).reg := by
  rcases handleFetch_v3_reg_cases net reg req with heq | ⟨hmem, r, heq⟩
  · rw [heq]; exact h
  · rw [heq]
    refine regKeysIn_registrySet CACHE_NAME_v3 h ?_
    intro e he
    rcases mem_cachePut he with rfl | he'
    · exact hmem
    · exact regKeysIn_cachesOpen h CACHE_NAME_v3 e he'

theorem regKeysIn_step_v3 {reg : Registry} (ev : SWEvent) (h : regKeysIn ASSETS_v3 reg) :
    regKeysIn ASSETS_v3 (step_v3 reg ev) := by
  cases ev with
  | install net =>
    rw [step_v3]
    cases hi : installEvent_v3 net reg with
    | none => exact h
    | some reg' =>
      exact regKeysIn_installInto (fun q hq => hq) h hi
  | activate => exact regKeysIn_purgeList CACHE_NAME_v3 (cachesKeys reg) h
  | fetchReq net req => exact regKeysIn_handleFetch_v3 h

theorem regKeysIn_run_v3 :
    ∀ (evs : List SWEvent) (reg : Registry), regKeysIn ASSETS_v3 reg →
      regKeysIn ASSETS_v3 (run_v3 reg evs) := by
  intro evs
  induction evs with
  | nil => intro reg h; exact h
  | cons ev rest ih => intro reg h; exact ih _ (regKeysIn_step_v3 ev h)

theorem regKeysIn_step_v1 {reg : Registry} (ev : SWEvent) (h : regKeysIn ASSETS_v1 reg) :
    regKeysIn ASSETS_v1 (step_v1 reg ev) := by
  cases ev with
  | install net =>
    rw [step_v1]
    cases hi : installEvent_v1 net reg with
    | none => exact h
    | some reg' =>
      exact regKeysIn_installInto (fun q hq => hq) h hi
  | activate => exact regKeysIn_purgeList CACHE_NAME_v1 (cachesKeys reg) h
  | fetchReq net req => rw [step_v1, handleFetch_v1_reg]; exact h

theorem regKeysIn_run_v1 :
    ∀ (evs : List SWEvent) (reg : Registry), regKeysIn ASSETS_v1 reg →
      regKeysIn ASSETS_v1 (run_v1 reg evs) := by
  intro evs
  induction evs with
  | nil => intro reg h; exact h
  | cons ev rest ih => intro reg h; exact ih _ (regKeysIn_step_v1 ev h)

theorem assets_v3_not_excluded :
    ∀ p ∈ ASSETS_v3, strStarts p "/create-link" = false ∧ strEnds p "/manifest.json" = false := by
  decide

theorem assets_v1_not_excluded :
    ∀ p ∈ ASSETS_v1, strStarts p "/create-link" = false ∧ strEnds p "/manifest.json" = false := by
  decide

theorem mem_removeKey_of {α : Type} {l : List (String × α)} {k : String} {e : String × α}
    (he : e ∈ l) (hne : ¬ e.1 = k) : e ∈ removeKey l k := by
  induction l with
  | nil => exact absurd he (List.not_mem_nil e)
  | cons a rest ih =>
    rcases List.mem_cons.1 he with rfl | he'
    · rw [removeKey, if_neg hne]
      exact List.mem_cons_self _ _
    · by_cases ha : a.1 = k
      · rw [removeKey, if_pos ha]
        exact ih he'
      · rw [removeKey, if_neg ha]
        exact List.mem_cons_of_mem _ (ih he')

theorem mem_purgeList_self (cur : String) :
    ∀ (ks : List String) (reg : Registry) (e : String × Cache),
      e ∈ reg → e.1 = cur → e ∈ purgeList cur ks reg := by
  intro ks
  induction ks with
  | nil => intro reg e he _; exact he
  | cons k rest ih =>
    intro reg e he hcur
    rw [purgeList]
    by_cases hk : k = cur
    · rw [if_pos hk]
      exact ih reg e he hcur
    · rw [if_neg hk]
      exact ih _ e (mem_removeKey_of he (fun hh => hk (hh.symm.trans hcur))) hcur

theorem installInto_elim {name : String} {assets : List String} {net : Net}
    {reg reg' : Registry} (h : installInto name assets net reg = some reg') :
    ∃ c, addAll net assets (cachesOpen reg name) = some c ∧ reg' = registrySet reg name c := by
  unfold installInto at h
  cases ha : addAll net assets (cachesOpen reg name) with
  | none => rw [ha] at h; exact absurd h (by simp)
  | some c =>
    rw [ha] at h
    cases h
    exact ⟨c, rfl, rfl⟩

theorem installInto_key_mem {name : String} {assets : List String} {net : Net}
    {reg reg' : Registry} {p : String} (h : installInto name assets net reg = some reg')
    (hp : p ∈ assets) : p ∈ cacheKeys (cachesOpen reg' name) := by
  rcases installInto_elim h with ⟨c, hadd, rfl⟩
  rw [cachesOpen_registrySet_self]
  have hs := addAll_isSome net assets _ c hadd p (Or.inl hp)
  rcases Option.isSome_iff_exists.1 hs with ⟨r, hr⟩
  exact List.mem_map.2 ⟨(p, r), lookupKey_mem hr, rfl⟩

/-- Claim C1: after the on-install handler completes successfully, every path
of the Asset Manifest is a key of the cache store named by the current version
label — for the v3 install handler (file lines 43-49) and the v1 install
handler (file lines 111-115). -/
theorem claimC1_install_populates :
    (∀ (net : Net) (reg reg' : Registry) (p : String),
        installEvent_v3 net reg = some reg' → p ∈ ASSETS_v3 →
        p ∈ cacheKeys (cachesOpen reg' CACHE_NAME_v3))
  ∧ (∀ (net : Net) (reg reg' : Registry) (p : String),
        installEvent_v1 net reg = some reg' → p ∈ ASSETS_v1 →
        p ∈ cacheKeys (cachesOpen reg' CACHE_NAME_v1)) := by
  constructor
  · intro net reg reg' p h hp
    exact installInto_key_mem h hp
  · intro net reg reg' p h hp
    exact installInto_key_mem h hp

/-- Witness for C1: a fully successful network populates both stores with
`/index.html`. -/
theorem claimC1_install_populates_witness :
    "/index.html" ∈ cacheKeys (cachesOpen
      ((installEvent_v3 (fun _ => some { status := 200, body := "ok" }) []).getD [])
      CACHE_NAME_v3)
  ∧ "/index.html" ∈ cacheKeys (cachesOpen
      ((installEvent_v1 (fun _ => some { status := 200, body := "ok" }) []).getD [])
      CACHE_NAME_v1) := by
  constructor
  · exact claimC1_install_populates.1 (fun _ => some { status := 200, body := "ok" }) []
      ((installEvent_v3 (fun _ => some { status := 200, body := "ok" }) []).getD [])
      "/index.html" (by decide) (by decide)
  · exact claimC1_install_populates.2 (fun _ => some { status := 200, body := "ok" }) []
      ((installEvent_v1 (fun _ => some { status := 200, body := "ok" }) []).getD [])
      "/index.html" (by decide) (by decide)

/-- Claim C2: after the on-activate handler completes, every store name that
was in the registry and differs from the current version label is no longer
listed — for the v3 activate handler (file lines 52-58) and for the activate
handler of the final revision (file lines 9-15), which deletes every store and
hence also every stale one. -/
theorem claimC2_activate_purges (reg : Registry) (name : String)
    (hmem : name ∈ cachesKeys reg) (hne : ¬ name = CACHE_NAME_v3) :
    ¬ name ∈ cachesKeys (activateEvent_v3 reg) ∧
    ¬ name ∈ cachesKeys (activateEvent_final reg) := by
  constructor
  · intro h
    rcases List.mem_map.1 h with ⟨e, he, heq⟩
    exact purgeList_not_mem CACHE_NAME_v3 (cachesKeys reg) reg name e hmem hne he heq
  · rw [activateEvent_final, purgeAll_keys_nil]
    simp [cachesKeys]

/-- Witness for C2: a stale store named "old" disappears under both handlers. -/
theorem claimC2_activate_purges_witness :
    ¬ "old" ∈ cachesKeys (activateEvent_v3 [("old", []), ("linkisend-v3", [])]) ∧
    ¬ "old" ∈ cachesKeys (activateEvent_final [("old", []), ("linkisend-v3", [])]) :=
  claimC2_activate_purges [("old", []), ("linkisend-v3", [])] "old" (by decide) (by decide)

/-- Claim C7: if fetching any single Asset Manifest path fails during
on-install, the whole installation fails — the `waitUntil` promise rejects
(`installEvent_v3` is `none`) and `skipWaiting` is not reached. -/
theorem claimC7_install_fails (net : Net) (reg : Registry) (p : String)
    (hp : p ∈ ASSETS_v3) (hn : net p = none) :
    installEvent_v3 net reg = none ∧ installSkipWaiting_v3 net reg = false := by
  have h : addAll net ASSETS_v3 (cachesOpen reg CACHE_NAME_v3) = none :=
    addAll_none_of_mem net ASSETS_v3 _ p hp hn
  have h1 : installEvent_v3 net reg = none := by
    rw [installEvent_v3, installInto, h]
  exact ⟨h1, by rw [installSkipWaiting_v3, h1]; rfl⟩

/-- Witness for C7: with the network down, install fails and `skipWaiting` is
not called. -/
theorem claimC7_install_fails_witness :
    installEvent_v3 (fun _ => none) [] = none ∧
    installSkipWaiting_v3 (fun _ => none) [] = false :=
  claimC7_install_fails (fun _ => none) [] "/" (by decide) (by decide)

/-- Claim C9: the on-message handler (file lines 18-22) calls `skipWaiting`
if and only if the message data is an object whose `type` equals
"SKIP_WAITING"; any other message has no effect (the handler does nothing
else). -/
theorem claimC9_message_skip_iff (data : Option MessageData) :
    messageSkipWaiting data = true ↔
      ∃ d, data = some d ∧ d.type = some "SKIP_WAITING" := by
  cases data with
  | none => simp [messageSkipWaiting]
  | some d => by_cases h : d.type = some "SKIP_WAITING" <;> simp [messageSkipWaiting, h]

/-- Witness for C9: the structured skip message triggers `skipWaiting`; an
unrecognised message does not. -/
theorem claimC9_message_skip_iff_witness :
    messageSkipWaiting (some { type := some "SKIP_WAITING" }) = true ∧
    messageSkipWaiting (some { type := some "PING" }) = false := by
  constructor
  · exact (claimC9_message_skip_iff (some { type := some "SKIP_WAITING" })).mpr
      ⟨{ type := some "SKIP_WAITING" }, rfl, rfl⟩
  · decide

/-- Claim C3: for a navigation request (mode "navigate", path not excluded)
after a completed install whose fetch of `/index.html` returned a status-200
response, a failing network fetch makes the v3 fetch handler (file lines
72-77) respond with that cached `/index.html` entry — a status-200 response —
instead of propagating the failure. -/
theorem claimC3_nav_offline_fallback (net0 netOff : Net) (reg' : Registry)
    (req : Request) (r : Response)
    (hinst : installEvent_v3 net0 [] = some reg')
    (hidx : net0 "/index.html" = some r)
    (hstatus : r.status = 200)
    (hmode : req.mode = "navigate")
    (hex1 : strEnds req.pathname "/manifest.json" = false)
    (hex2 : strStarts req.pathname "/create-link" = false)
    (hoff : netOff req.pathname = none) :
    (handleFetch_v3 netOff reg' req).intercepted = true ∧
    (handleFetch_v3 netOff reg' req).response = some r ∧ r.status = 200 := by
  rcases installInto_elim hinst with ⟨c, hadd, rfl⟩
  have hc : cacheMatch c "/index.html" = net0 "/index.html" :=
    addAll_lookup_of_mem net0 ASSETS_v3 _ c (by decide) hadd "/index.html" (by decide)
  have hmatch : cachesMatchAll (registrySet [] CACHE_NAME_v3 c) "/index.html" = some r := by
    have : registrySet [] CACHE_NAME_v3 c = [(CACHE_NAME_v3, c)] := rfl
    rw [this, cachesMatchAll_pair, hc, hidx]
  refine ⟨?_, ?_, hstatus⟩
  · simp [handleFetch_v3, hex1, hex2, hmode, hoff]
  · simp [handleFetch_v3, hex1, hex2, hmode, hoff, hmatch]

/-- Witness for C3: fresh install over a healthy network, then an offline
navigation to `/claim.html` is answered with the cached index entry. -/
theorem claimC3_nav_offline_fallback_witness :
    (handleFetch_v3 (fun _ => none)
      ((installEvent_v3 (fun _ => some { status := 200, body := "ok" }) []).getD [])
      { pathname := "/claim.html", mode := "navigate" }).intercepted = true ∧
    (handleFetch_v3 (fun _ => none)
      ((installEvent_v3 (fun _ => some { status := 200, body := "ok" }) []).getD [])
      { pathname := "/claim.html", mode := "navigate" }).response =
        some { status := 200, body := "ok" } ∧
    ({ status := 200, body := "ok" } : Response).status = 200 :=
  claimC3_nav_offline_fallback (fun _ => some { status := 200, body := "ok" }) (fun _ => none)
    ((installEvent_v3 (fun _ => some { status := 200, body := "ok" }) []).getD [])
    { pathname := "/claim.html", mode := "navigate" } { status := 200, body := "ok" }
    (by decide) (by decide) (by decide) (by decide) (by decide) (by decide) (by decide)

/-- Claim C6: a request that is not a navigation, not in the Asset Manifest
and not excluded is served network-first; when the network fails, the handler
responds with whatever the cache registry holds for that path — the
previously cached response if one was stored, and no response at all (the
request fails) if none was — for the v3 default branch (file lines 94-97)
and the v1 default branch (file lines 142-144). -/
theorem claimC6_default_network_fallback :
    (∀ (net : Net) (reg : Registry) (req : Request),
        strEnds req.pathname "/manifest.json" = false →
        strStarts req.pathname "/create-link" = false →
        ¬ req.mode = "navigate" → ¬ req.pathname ∈ ASSETS_v3 →
        net req.pathname = none →
        (handleFetch_v3 net reg req).intercepted = true ∧
        (handleFetch_v3 net reg req).response = cachesMatchAll reg req.pathname)
  ∧ (∀ (net : Net) (reg : Registry) (req : Request),
        strStarts req.pathname "/create-link" = false →
        ¬ req.mode = "navigate" → ¬ req.pathname ∈ ASSETS_v1 →
        net req.pathname = none →
        (handleFetch_v1 net reg req).intercepted = true ∧
        (handleFetch_v1 net reg req).response = cachesMatchAll reg req.pathname) := by
  constructor
  · intro net reg req hex1 hex2 hmode hmem hn
    constructor <;> simp [handleFetch_v3, hex1, hex2, hmode, hmem, hn]
  · intro net reg req hex2 hmode hmem hn
    constructor <;> simp [handleFetch_v1, hex2, hmem, hn]

/-- Witness for C6: offline, a previously cached `/data.json` is served from
the cache by both default branches (its cache entry is exactly what
`cachesMatchAll` yields). -/
theorem claimC6_default_network_fallback_witness :
    ((handleFetch_v3 (fun _ => none) [("c", [("/data.json", { status := 200, body := "d" })])]
        { pathname := "/data.json", mode := "cors" }).intercepted = true ∧
     (handleFetch_v3 (fun _ => none) [("c", [("/data.json", { status := 200, body := "d" })])]
        { pathname := "/data.json", mode := "cors" }).response =
          cachesMatchAll [("c", [("/data.json", { status := 200, body := "d" })])] "/data.json")
  ∧ ((handleFetch_v1 (fun _ => none) [("c", [("/data.json", { status := 200, body := "d" })])]
        { pathname := "/data.json", mode := "cors" }).intercepted = true ∧
     (handleFetch_v1 (fun _ => none) [("c", [("/data.json", { status := 200, body := "d" })])]
        { pathname := "/data.json", mode := "cors" }).response =
          cachesMatchAll [("c", [("/data.json", { status := 200, body := "d" })])] "/data.json") :=
  ⟨claimC6_default_network_fallback.1 (fun _ => none)
      [("c", [("/data.json", { status := 200, body := "d" })])]
      { pathname := "/data.json", mode := "cors" }
      (by decide) (by decide) (by decide) (by decide) (by decide),
   claimC6_default_network_fallback.2 (fun _ => none)
      [("c", [("/data.json", { status := 200, body := "d" })])]
      { pathname := "/data.json", mode := "cors" }
      (by decide) (by decide) (by decide) (by decide)⟩

/-- Counterexample to C4 as stated: the v1 fetch handler (file lines 134-139),
cited by the claim, performs no cache write on the first request for the
precached asset `/countries.js` (cache empty, non-navigation, not excluded),
and the second request triggers a network fetch again rather than being
served from the cache. -/
theorem claimC4_counterexample :
    (handleFetch_v1 (fun _ => some { status := 200, body := "net" }) []
      { pathname := "/countries.js", mode := "cors" }).cacheWrites = 0
  ∧ (handleFetch_v1 (fun _ => some { status := 200, body := "net" })
      (handleFetch_v1 (fun _ => some { status := 200, body := "net" }) []
        { pathname := "/countries.js", mode := "cors" }).reg
      { pathname := "/countries.js", mode := "cors" }).netFetches = 1 := by
  decide

/-- Claim C4 (amended): for the v3 fetch handler (file lines 80-92) the claim
holds as stated — a precached-asset request issued twice from an empty cache
does exactly one network fetch and one cache write the first time and is
served from the cache with no fetch the second time. The v1 fetch handler
(file lines 134-139) serves such requests cache-first but never writes the
network response back: from an empty cache the first request does one network
fetch and zero cache writes, leaves the registry unchanged, and the second
request fetches from the network again. -/
theorem claimC4_amended :
    (∀ (net : Net) (p m : String) (r : Response),
        p ∈ ASSETS_v3 → ¬ m = "navigate" → net p = some r →
        (handleFetch_v3 net [] { pathname := p, mode := m }).netFetches = 1 ∧
        (handleFetch_v3 net [] { pathname := p, mode := m }).cacheWrites = 1 ∧
        (handleFetch_v3 net [] { pathname := p, mode := m }).response = some r ∧
        (handleFetch_v3 net (handleFetch_v3 net [] { pathname := p, mode := m }).reg
          { pathname := p, mode := m }).netFetches = 0 ∧
        (handleFetch_v3 net (handleFetch_v3 net [] { pathname := p, mode := m }).reg
          { pathname := p, mode := m }).cacheWrites = 0 ∧
        (handleFetch_v3 net (handleFetch_v3 net [] { pathname := p, mode := m }).reg
          { pathname := p, mode := m }).response = some r)
  ∧ (∀ (net : Net) (p m : String) (r : Response),
        p ∈ ASSETS_v1 → ¬ m = "navigate" → net p = some r →
        (handleFetch_v1 net [] { pathname := p, mode := m }).netFetches = 1 ∧
        (handleFetch_v1 net [] { pathname := p, mode := m }).cacheWrites = 0 ∧
        (handleFetch_v1 net [] { pathname := p, mode := m }).reg = [] ∧
        (handleFetch_v1 net (handleFetch_v1 net [] { pathname := p, mode := m }).reg
          { pathname := p, mode := m }).netFetches = 1) := by
  constructor
  · intro net p m r hp hm hn
    rcases assets_v3_not_excluded p hp with ⟨hs, he⟩
    have h1 : handleFetch_v3 net [] { pathname := p, mode := m } =
        { intercepted := true, response := some r,
          reg := registryPut [] CACHE_NAME_v3 p r, netFetches := 1, cacheWrites := 1 } := by
      simp [handleFetch_v3, hs, he, hm, hp, hn, cachesMatchAll]
    have hreg : registryPut [] CACHE_NAME_v3 p r = [(CACHE_NAME_v3, [(p, r)])] := by
      simp [registryPut, registrySet, cachesOpen, cachePut, removeKey, lookupKey]
    have hcm1 : cachesMatchAll [(CACHE_NAME_v3, [(p, r)])] p = some r := by
      rw [cachesMatchAll_pair]
      simp [cacheMatch, lookupKey]
    have h2 : handleFetch_v3 net [(CACHE_NAME_v3, [(p, r)])] { pathname := p, mode := m } =
        { intercepted := true, response := some r, reg := [(CACHE_NAME_v3, [(p, r)])],
          netFetches := 0, cacheWrites := 0 } := by
      simp [handleFetch_v3, hs, he, hm, hp, hcm1]
    refine ⟨?_, ?_, ?_, ?_, ?_, ?_⟩ <;> simp [h1, hreg, h2]
  · intro net p m r hp hm hn
    have hs := (assets_v1_not_excluded p hp).1
    have h1 : handleFetch_v1 net [] { pathname := p, mode := m } =
        { intercepted := true, response := some r, reg := [],
          netFetches := 1, cacheWrites := 0 } := by
      simp [handleFetch_v1, hs, hp, hn, cachesMatchAll]
    refine ⟨?_, ?_, ?_, ?_⟩ <;> simp [h1]

/-- Witness for C4 (amended): concrete double request for `/countries.js`
under both handlers. -/
theorem claimC4_amended_witness :
    ((handleFetch_v3 (fun _ => some { status := 200, body := "net" }) []
        { pathname := "/countries.js", mode := "cors" }).netFetches = 1 ∧
     (handleFetch_v3 (fun _ => some { status := 200, body := "net" }) []
        { pathname := "/countries.js", mode := "cors" }).cacheWrites = 1 ∧
     (handleFetch_v3 (fun _ => some { status := 200, body := "net" }) []
        { pathname := "/countries.js", mode := "cors" }).response =
          some { status := 200, body := "net" } ∧
     (handleFetch_v3 (fun _ => some { status := 200, body := "net" })
        (handleFetch_v3 (fun _ => some { status := 200, body := "net" }) []
          { pathname := "/countries.js", mode := "cors" }).reg
        { pathname := "/countries.js", mode := "cors" }).netFetches = 0 ∧
     (handleFetch_v3 (fun _ => some { status := 200, body := "net" })
        (handleFetch_v3 (fun _ => some { status := 200, body := "net" }) []
          { pathname := "/countries.js", mode := "cors" }).reg
        { pathname := "/countries.js", mode := "cors" }).cacheWrites = 0 ∧
     (handleFetch_v3 (fun _ => some { status := 200, body := "net" })
        (handleFetch_v3 (fun _ => some { status := 200, body := "net" }) []
          { pathname := "/countries.js", mode := "cors" }).reg
        { pathname := "/countries.js", mode := "cors" }).response =
          some { status := 200, body := "net" })
  ∧ ((handleFetch_v1 (fun _ => some { status := 200, body := "net" }) []
        { pathname := "/countries.js", mode := "cors" }).netFetches = 1 ∧
     (handleFetch_v1 (fun _ => some { status := 200, body := "net" }) []
        { pathname := "/countries.js", mode := "cors" }).cacheWrites = 0 ∧
     (handleFetch_v1 (fun _ => some { status := 200, body := "net" }) []
        { pathname := "/countries.js", mode := "cors" }).reg = [] ∧
     (handleFetch_v1 (fun _ => some { status := 200, body := "net" })
        (handleFetch_v1 (fun _ => some { status := 200, body := "net" }) []
          { pathname := "/countries.js", mode := "cors" }).reg
        { pathname := "/countries.js", mode := "cors" }).netFetches = 1) :=
  ⟨claimC4_amended.1 (fun _ => some { status := 200, body := "net" }) "/countries.js" "cors"
      { status := 200, body := "net" } (by decide) (by decide) (by decide),
   claimC4_amended.2 (fun _ => some { status := 200, body := "net" }) "/countries.js" "cors"
      { status := 200, body := "net" } (by decide) (by decide) (by decide)⟩

/-- Counterexample to C5 as stated: the v1 fetch handler (file lines 130-131),
cited by the claim, has no `/manifest.json` exclusion, so it does intercept a
request for `/manifest.json` (its `respondWith` is called). -/
theorem claimC5_counterexample :
    (handleFetch_v1 (fun _ => some { status := 200, body := "m" }) []
      { pathname := "/manifest.json", mode := "cors" }).intercepted = true := by
  decide

/-- Claim C5 (amended): requests whose path starts with `/create-link` are
never intercepted by either fetch handler; requests whose path ends with
`/manifest.json` are not intercepted by the v3 handler (file lines 67-69) but
are intercepted by the v1 handler (file lines 130-131), which serves them
network-first and never caches them. Moreover, under any sequence of install,
activate and fetch events starting from an empty registry, no path starting
with `/create-link` or ending with `/manifest.json` is ever a key in any
cache store, in either revision. -/
theorem claimC5_amended :
    (∀ (net : Net) (reg : Registry) (req : Request),
        strStarts req.pathname "/create-link" = true →
        (handleFetch_v3 net reg req).intercepted = false ∧
        (handleFetch_v1 net reg req).intercepted = false)
  ∧ (∀ (net : Net) (reg : Registry) (req : Request),
        strEnds req.pathname "/manifest.json" = true →
        (handleFetch_v3 net reg req).intercepted = false)
  ∧ (∀ (evs : List SWEvent) (p : String),
        strStarts p "/create-link" = true ∨ strEnds p "/manifest.json" = true →
        ¬ regHasKey (run_v3 [] evs) p ∧ ¬ regHasKey (run_v1 [] evs) p) := by
  refine ⟨?_, ?_, ?_⟩
  · intro net reg req h
    exact ⟨(handleFetch_v3_intercepted_iff net reg req).2 (Or.inr h),
           (handleFetch_v1_intercepted_iff net reg req).2 h⟩
  · intro net reg req h
    exact (handleFetch_v3_intercepted_iff net reg req).2 (Or.inl h)
  · intro evs p hp
    constructor
    · rintro ⟨nc, hnc, e, he, rfl⟩
      have hmem : e.1 ∈ ASSETS_v3 :=
        regKeysIn_run_v3 evs [] (regKeysIn_nil ASSETS_v3) nc hnc e he
      rcases assets_v3_not_excluded e.1 hmem with ⟨hs, hends⟩
      rcases hp with hp | hp
      · rw [hs] at hp; exact Bool.false_ne_true hp
      · rw [hends] at hp; exact Bool.false_ne_true hp
    · rintro ⟨nc, hnc, e, he, rfl⟩
      have hmem : e.1 ∈ ASSETS_v1 :=
        regKeysIn_run_v1 evs [] (regKeysIn_nil ASSETS_v1) nc hnc e he
      rcases assets_v1_not_excluded e.1 hmem with ⟨hs, hends⟩
      rcases hp with hp | hp
      · rw [hs] at hp; exact Bool.false_ne_true hp
      · rw [hends] at hp; exact Bool.false_ne_true hp

/-- Witness for C5 (amended): the API path `/create-link/abc` is not
intercepted by either handler, and after an install followed by a fetch it is
not a key in any cache store of either revision. -/
theorem claimC5_amended_witness :
    ((handleFetch_v3 (fun _ => some { status := 200, body := "x" }) []
        { pathname := "/create-link/abc", mode := "cors" }).intercepted = false ∧
     (handleFetch_v1 (fun _ => some { status := 200, body := "x" }) []
        { pathname := "/create-link/abc", mode := "cors" }).intercepted = false)
  ∧ (¬ regHasKey (run_v3 []
        [SWEvent.install (fun _ => some { status := 200, body := "x" }),
         SWEvent.fetchReq (fun _ => some { status := 200, body := "x" })
           { pathname := "/create-link/abc", mode := "cors" }]) "/create-link/abc" ∧
     ¬ regHasKey (run_v1 []
        [SWEvent.install (fun _ => some { status := 200, body := "x" }),
         SWEvent.fetchReq (fun _ => some { status := 200, body := "x" })
           { pathname := "/create-link/abc", mode := "cors" }]) "/create-link/abc") :=
  ⟨claimC5_amended.1 (fun _ => some { status := 200, body := "x" }) []
      { pathname := "/create-link/abc", mode := "cors" } (by decide),
   claimC5_amended.2.2
      [SWEvent.install (fun _ => some { status := 200, body := "x" }),
       SWEvent.fetchReq (fun _ => some { status := 200, body := "x" })
         { pathname := "/create-link/abc", mode := "cors" }]
      "/create-link/abc" (Or.inl (by decide))⟩

/-- Counterexample to C8 as stated: the activate handler of the final revision
(file lines 9-15), cited by the claim, deletes every cache store — including
the store named by the current version label, which held an entry before
activation. -/
theorem claimC8_counterexample :
    lookupKey ([("linkisend-v3", [("/index.html", { status := 200, body := "x" })])] : Registry)
      "linkisend-v3" = some [("/index.html", { status := 200, body := "x" })]
  ∧ activateEvent_final [("linkisend-v3", [("/index.html", { status := 200, body := "x" })])]
      = [] := by
  decide

/-- Claim C8 (amended): the v3 and v1 activate handlers (file lines 52-58 and
118-124) delete only stores whose name differs from their version label, and
leave the store named by the current version label — with every entry in it —
unchanged; the activate handler of the final revision (file lines 9-15)
instead deletes every cache store, including the current one. -/
theorem claimC8_amended :
    (∀ reg : Registry,
        lookupKey (activateEvent_v3 reg) CACHE_NAME_v3 = lookupKey reg CACHE_NAME_v3)
  ∧ (∀ (reg : Registry) (e : String × Cache),
        e ∈ reg → ¬ e ∈ activateEvent_v3 reg → ¬ e.1 = CACHE_NAME_v3)
  ∧ (∀ reg : Registry,
        lookupKey (activateEvent_v1 reg) CACHE_NAME_v1 = lookupKey reg CACHE_NAME_v1)
  ∧ (∀ reg : Registry, activateEvent_final reg = []) := by
  refine ⟨?_, ?_, ?_, ?_⟩
  · intro reg
    exact lookupKey_purgeList CACHE_NAME_v3 (cachesKeys reg) reg
  · intro reg e hin hout hcur
    exact hout (mem_purgeList_self CACHE_NAME_v3 (cachesKeys reg) reg e hin hcur)
  · intro reg
    exact lookupKey_purgeList CACHE_NAME_v1 (cachesKeys reg) reg
  · intro reg
    exact purgeAll_keys_nil reg

/-- Witness for C8 (amended): on a registry with a stale store and the current
store, the current store survives v3 activation unchanged and the deleted
store's name differs from the version label. -/
theorem claimC8_amended_witness :
    lookupKey (activateEvent_v3 [("old", []), ("linkisend-v3", [("/", { status := 200, body := "x" })])])
        CACHE_NAME_v3 =
      lookupKey [("old", []), ("linkisend-v3", [("/", { status := 200, body := "x" })])] CACHE_NAME_v3
  ∧ ¬ (("old", ([] : Cache)).1 = CACHE_NAME_v3)
  ∧ activateEvent_final [("old", []), ("linkisend-v3", [("/", { status := 200, body := "x" })])] = [] :=
  ⟨claimC8_amended.1 [("old", []), ("linkisend-v3", [("/", { status := 200, body := "x" })])],
   claimC8_amended.2.1 [("old", []), ("linkisend-v3", [("/", { status := 200, body := "x" })])]
      ("old", []) (by decide) (by decide),
   claimC8_amended.2.2.2 [("old", []), ("linkisend-v3", [("/", { status := 200, body := "x" })])]⟩

/-- Counterexample to C10 as stated: under the v1 fetch handler (file lines
127-145), cited by the claim, a navigation request for `/` — a path in that
revision's Asset Manifest — is served from the cache with zero network
fetches, i.e. cache-first, not network-first. -/
theorem claimC10_counterexample :
    (handleFetch_v1 (fun _ => some { status := 200, body := "net" })
      [("linkisend-v1", [("/", { status := 200, body := "cached" })])]
      { pathname := "/", mode := "navigate" }).response =
        some { status := 200, body := "cached" }
  ∧ (handleFetch_v1 (fun _ => some { status := 200, body := "net" })
      [("linkisend-v1", [("/", { status := 200, body := "cached" })])]
      { pathname := "/", mode := "navigate" }).netFetches = 0 := by
  decide

/-- Claim C10 (amended): for both fetch handlers the outcome is a
deterministic function of the request's URL path and mode (given the cache
and network state), and at most one branch calls `respondWith` — exactly the
non-excluded requests are intercepted, excluded ones are not. The v3 handler
(file lines 64-97) tests branches in the order excluded, navigation,
precached-asset, default, so a navigation request whose path is in the Asset
Manifest is handled network-first. The v1 handler (file lines 127-145) has no
navigation branch (order: excluded, precached-asset, default), so a
navigation request whose path is in its Asset Manifest and already cached is
served cache-first with no network fetch. -/
theorem claimC10_amended :
    (∀ (net : Net) (reg : Registry) (r1 r2 : Request),
        r1.pathname = r2.pathname → r1.mode = r2.mode →
        handleFetch_v3 net reg r1 = handleFetch_v3 net reg r2 ∧
        handleFetch_v1 net reg r1 = handleFetch_v1 net reg r2)
  ∧ (∀ (net : Net) (reg : Registry) (req : Request),
        (handleFetch_v3 net reg req).intercepted = false ↔
          (strEnds req.pathname "/manifest.json" = true ∨
            strStarts req.pathname "/create-link" = true))
  ∧ (∀ (net : Net) (reg : Registry) (req : Request),
        (handleFetch_v1 net reg req).intercepted = false ↔
          strStarts req.pathname "/create-link" = true)
  ∧ (∀ (net : Net) (reg : Registry) (req : Request) (r : Response),
        req.mode = "navigate" → req.pathname ∈ ASSETS_v3 → net req.pathname = some r →
        (handleFetch_v3 net reg req).response = some r ∧
        (handleFetch_v3 net reg req).netFetches = 1)
  ∧ (∀ (net : Net) (reg : Registry) (req : Request) (r : Response),
        req.mode = "navigate" → req.pathname ∈ ASSETS_v1 →
        cachesMatchAll reg req.pathname = some r →
        (handleFetch_v1 net reg req).response = some r ∧
        (handleFetch_v1 net reg req).netFetches = 0) := by
  refine ⟨?_, ?_, ?_, ?_, ?_⟩
  · intro net reg r1 r2 h1 h2
    cases r1
    cases r2
    simp only at h1 h2
    subst h1
    subst h2
    exact ⟨rfl, rfl⟩
  · intro net reg req
    exact handleFetch_v3_intercepted_iff net reg req
  · intro net reg req
    exact handleFetch_v1_intercepted_iff net reg req
  · intro net reg req r hmode hmem hn
    rcases assets_v3_not_excluded req.pathname hmem with ⟨hs, he⟩
    constructor <;> simp [handleFetch_v3, hs, he, hmode, hn]
  · intro net reg req r hmode hmem hcm
    have hs := (assets_v1_not_excluded req.pathname hmem).1
    constructor <;> simp [handleFetch_v1, hs, hmem, hcm]

/-- Witness for C10 (amended): a navigation request for `/` with the network
up is answered from the network by the v3 handler, and from the cache by the
v1 handler when `/` is cached. -/
theorem claimC10_amended_witness :
    ((handleFetch_v3 (fun _ => some { status := 200, body := "net" })
        [("linkisend-v3", [("/", { status := 200, body := "cached" })])]
        { pathname := "/", mode := "navigate" }).response =
          some { status := 200, body := "net" } ∧
     (handleFetch_v3 (fun _ => some { status := 200, body := "net" })
        [("linkisend-v3", [("/", { status := 200, body := "cached" })])]
        { pathname := "/", mode := "navigate" }).netFetches = 1)
  ∧ ((handleFetch_v1 (fun _ => some { status := 200, body := "net" })
        [("linkisend-v1", [("/", { status := 200, body := "cached" })])]
        { pathname := "/", mode := "navigate" }).response =
          some { status := 200, body := "cached" } ∧
     (handleFetch_v1 (fun _ => some { status := 200, body := "net" })
        [("linkisend-v1", [("/", { status := 200, body := "cached" })])]
        { pathname := "/", mode := "navigate" }).netFetches = 0) :=
  ⟨claimC10_amended.2.2.2.1 (fun _ => some { status := 200, body := "net" })
      [("linkisend-v3", [("/", { status := 200, body := "cached" })])]
      { pathname := "/", mode := "navigate" } { status := 200, body := "net" }
      (by decide) (by decide) (by decide),
   claimC10_amended.2.2.2.2 (fun _ => some { status := 200, body := "net" })
      [("linkisend-v1", [("/", { status := 200, body := "cached" })])]
      { pathname := "/", mode := "navigate" } { status := 200, body := "cached" }
      (by decide) (by decide) (by decide)⟩
